import Mathlib

/-!
Verification of the geometry and planning layer of the resize tool.

The embedding models, over exact rationals:
  * the contain-fit rectangle computation of MediaPreview (fitted rect effect),
  * the drag handlers of MediaPreview (move with center snapping, and the
    pixel-box reconstruction and its inverse used by resize handles),
  * the composition planner inside processVideo (even target adjustment,
    scale, round, even clamp, pad and crop offsets),
  * the single-stage raster draw of processImage,
  * the loadFFmpeg memoization state machine,
  * the batch download loop of App.
-/

namespace Resize

/-- Normalized transform: scale relative to the fitted size, pan as fractions
of the container dimensions. -/
structure Transform where
  scale : ℚ
  x : ℚ
  y : ℚ
deriving DecidableEq, Repr

/-- Contain placement of the media inside the container, in container pixels. -/
structure FittedRect where
  width : ℚ
  height : ℚ
  left : ℚ
  top : ℚ
deriving DecidableEq, Repr

/-- A pixel box in container coordinates. -/
structure Rect where
  left : ℚ
  top : ℚ
  width : ℚ
  height : ℚ
deriving DecidableEq, Repr

/-- Contain fit, as computed by the fitted-rect effect in MediaPreview:
compare the media aspect with the container aspect, bind by width when the
media is relatively wider, otherwise by height, then center. -/
def fitContain (mediaAspect containerW containerH : ℚ) : FittedRect :=
  let containerAspect := containerW / containerH
  let w := if mediaAspect > containerAspect then containerW else containerH * mediaAspect
  let h := if mediaAspect > containerAspect then containerW / mediaAspect else containerH
  { width := w, height := h, left := (containerW - w) / 2, top := (containerH - h) / 2 }

/-- Pixel box implied by a transform, as reconstructed at the start of the
resize branch of handleMouseMove: width and height are the fitted size times
the scale, the center is the container center shifted by the pan fractions. -/
def rectFor (t : Transform) (fitted : FittedRect) (containerW containerH : ℚ) : Rect :=
  let currentW := fitted.width * t.scale
  let currentH := fitted.height * t.scale
  let centerX := containerW / 2 + t.x * containerW
  let centerY := containerH / 2 + t.y * containerH
  { left := centerX - currentW / 2
    top := centerY - currentH / 2
    width := currentW
    height := currentH }

/-- Inverse mapping from a pixel box back to a transform, as computed at the
end of the resize branch of handleMouseMove: scale is the box width over the
fitted width floored at 0.1, pan is the box center relative to the container
center divided by the container dimensions. -/
def pixelRectToTransform (r : Rect) (fitted : FittedRect) (containerW containerH : ℚ) :
    Transform :=
  let newScale := r.width / fitted.width
  let newCenterX := r.left + r.width / 2
  let newCenterY := r.top + r.height / 2
  { scale := max (1/10) newScale
    x := (newCenterX - containerW / 2) / containerW
    y := (newCenterY - containerH / 2) / containerH }

/-- Snap threshold used by the move branch of handleMouseMove. -/
def SNAP_THRESHOLD : ℚ := 3/100

/-- Move branch of handleMouseMove: shift the pan by the pointer delta divided
by the container size, snapping each axis to zero independently when its new
value is within the threshold. Returns the new transform together with the
snapped-X and snapped-Y flags. -/
def moveResult (startTransform : Transform) (deltaX deltaY containerW containerH : ℚ) :
    Transform × Bool × Bool :=
  let newTx0 := startTransform.x + deltaX / containerW
  let newTy0 := startTransform.y + deltaY / containerH
  let newTx := if |newTx0| < SNAP_THRESHOLD then 0 else newTx0
  let snapX := decide (|newTx0| < SNAP_THRESHOLD)
  let newTy := if |newTy0| < SNAP_THRESHOLD then 0 else newTy0
  let snapY := decide (|newTy0| < SNAP_THRESHOLD)
  ({ scale := startTransform.scale, x := newTx, y := newTy }, snapX, snapY)

/-- C1: for every transform with scale at least 0.1, reconstructing the pixel
box from the transform and converting it back through pixelRectToTransform
returns the original transform, provided the fitted width and the container
dimensions are positive. -/
theorem pixelRectToTransform_roundTrip (t : Transform) (fitted : FittedRect)
    (containerW containerH : ℚ) (hs : 1/10 ≤ t.scale) (hfw : 0 < fitted.width)
    (hcw : 0 < containerW) (hch : 0 < containerH) :
    pixelRectToTransform (rectFor t fitted containerW containerH) fitted
      containerW containerH = t := by
  obtain ⟨s, x, y⟩ := t
  simp only [pixelRectToTransform, rectFor, Transform.mk.injEq]
  refine ⟨?_, ?_, ?_⟩
  · rw [mul_div_cancel_left₀ _ (ne_of_gt hfw)]
    exact sup_eq_right.mpr hs
  · field_simp
  · field_simp

/-- Closed instance of the C1 round trip at a concrete transform. -/
theorem pixelRectToTransform_roundTrip_witness :
    pixelRectToTransform
      (rectFor ⟨3/2, 1/4, -1/8⟩ ⟨300, 200, 50, 100⟩ 400 400) ⟨300, 200, 50, 100⟩ 400 400
      = ⟨3/2, 1/4, -1/8⟩ :=
  pixelRectToTransform_roundTrip ⟨3/2, 1/4, -1/8⟩ ⟨300, 200, 50, 100⟩ 400 400
    (by norm_num) (by norm_num) (by norm_num) (by norm_num)

/-- C7: the move branch keeps the scale of the drag-start snapshot and sets
each pan axis to the snapshot value plus the pointer delta over the container
dimension, snapped to exactly zero when its absolute value is below 0.03,
independently per axis. -/
theorem moveResult_formula (startTransform : Transform)
    (deltaX deltaY containerW containerH : ℚ) :
    (moveResult startTransform deltaX deltaY containerW containerH).1.scale
        = startTransform.scale ∧
    (moveResult startTransform deltaX deltaY containerW containerH).1.x
        = (if |startTransform.x + deltaX / containerW| < 3/100 then 0
           else startTransform.x + deltaX / containerW) ∧
    (moveResult startTransform deltaX deltaY containerW containerH).1.y
        = (if |startTransform.y + deltaY / containerH| < 3/100 then 0
           else startTransform.y + deltaY / containerH) := by
  refine ⟨rfl, ?_, ?_⟩ <;> simp only [moveResult, SNAP_THRESHOLD]

/-- C8: for a positive media aspect and positive container dimensions, the
contain fit is inside the container and centered on both axes. -/
theorem fitContain_inside_centered (mediaAspect containerW containerH : ℚ)
    (ha : 0 < mediaAspect) (_hcw : 0 < containerW) (hch : 0 < containerH) :
    0 ≤ (fitContain mediaAspect containerW containerH).left ∧
    0 ≤ (fitContain mediaAspect containerW containerH).top ∧
    2 * (fitContain mediaAspect containerW containerH).left
        + (fitContain mediaAspect containerW containerH).width = containerW ∧
    2 * (fitContain mediaAspect containerW containerH).top
        + (fitContain mediaAspect containerW containerH).height = containerH := by
  simp only [fitContain]
  split_ifs with h
  · refine ⟨by simp, ?_, by ring, by ring⟩
    have hh : containerW / mediaAspect ≤ containerH := by
      rw [div_le_iff₀ ha]
      have := (div_lt_iff₀ hch).mp h
      linarith
    linarith
  · refine ⟨?_, by simp, by ring, by ring⟩
    have hw : containerH * mediaAspect ≤ containerW := by
      have h2 : mediaAspect ≤ containerW / containerH := not_lt.mp h
      have := (le_div_iff₀ hch).mp h2
      linarith
    linarith

/-- Closed instance of C8 at a concrete aspect and container. -/
theorem fitContain_inside_centered_witness :
    0 ≤ (fitContain (16/9) 280 280).left ∧
    0 ≤ (fitContain (16/9) 280 280).top ∧
    2 * (fitContain (16/9) 280 280).left + (fitContain (16/9) 280 280).width = 280 ∧
    2 * (fitContain (16/9) 280 280).top + (fitContain (16/9) 280 280).height = 280 :=
  fitContain_inside_centered (16/9) 280 280 (by norm_num) (by norm_num) (by norm_num)

/-! ### Composition planner (processVideo) and raster draw (processImage) -/

/-- Rounding used by JavaScript Math.round: floor of the value plus one half. -/
def jsRound (q : ℚ) : ℤ := ⌊q + 1/2⌋

/-- All geometric quantities computed by the planning part of processVideo. -/
structure VideoPlan where
  padW : ℤ
  padH : ℤ
  scaleFactor : ℚ
  newW : ℤ
  newH : ℤ
  xPos : ℚ
  yPos : ℚ
  superW : ℤ
  superH : ℤ
  padX : ℚ
  padY : ℚ
  cropX : ℚ
  cropY : ℚ
deriving DecidableEq, Repr

/-- Planner of processVideo: even-adjust the target, contain-scale times the
user scale, round the scaled media dimensions, force them even, clamp at 2,
then compute the signed position and split it into pad and crop offsets. -/
def planVideo (iw ih targetWidth targetHeight : ℤ) (userScale panX panY : ℚ) :
    VideoPlan :=
  let padW := if targetWidth % 2 ≠ 0 then targetWidth - 1 else targetWidth
  let padH := if targetHeight % 2 ≠ 0 then targetHeight - 1 else targetHeight
  let scaleFactor := min ((padW : ℚ) / (iw : ℚ)) ((padH : ℚ) / (ih : ℚ)) * userScale
  let newW0 := jsRound ((iw : ℚ) * scaleFactor)
  let newH0 := jsRound ((ih : ℚ) * scaleFactor)
  let newW1 := if newW0 % 2 ≠ 0 then newW0 - 1 else newW0
  let newH1 := if newH0 % 2 ≠ 0 then newH0 - 1 else newH0
  let newW := max 2 newW1
  let newH := max 2 newH1
  let xPos := ((padW : ℚ) - (newW : ℚ)) / 2 + (padW : ℚ) * panX
  let yPos := ((padH : ℚ) - (newH : ℚ)) / 2 + (padH : ℚ) * panY
  { padW := padW
    padH := padH
    scaleFactor := scaleFactor
    newW := newW
    newH := newH
    xPos := xPos
    yPos := yPos
    superW := max padW newW
    superH := max padH newH
    padX := max 0 xPos
    padY := max 0 yPos
    cropX := max 0 (-xPos)
    cropY := max 0 (-yPos) }

/-- The single draw call prepared by processImage: background-filled canvas of
the exact target size, media drawn at the centered position shifted by the pan
fractions of the target dimensions, at the contain scale times the user scale. -/
structure ImageDraw where
  canvasW : ℤ
  canvasH : ℤ
  x : ℚ
  y : ℚ
  drawWidth : ℚ
  drawHeight : ℚ
deriving DecidableEq, Repr

/-- Geometry computed by processImage. -/
def processImageDraw (iw ih targetWidth targetHeight : ℤ) (userScale panX panY : ℚ) :
    ImageDraw :=
  let baseScale := min ((targetWidth : ℚ) / (iw : ℚ)) ((targetHeight : ℚ) / (ih : ℚ))
  let finalScale := baseScale * userScale
  let drawWidth := (iw : ℚ) * finalScale
  let drawHeight := (ih : ℚ) * finalScale
  { canvasW := targetWidth
    canvasH := targetHeight
    x := ((targetWidth : ℚ) - drawWidth) / 2 + (targetWidth : ℚ) * panX
    y := ((targetHeight : ℚ) - drawHeight) / 2 + (targetHeight : ℚ) * panY
    drawWidth := drawWidth
    drawHeight := drawHeight }

/-- Final placement of the media in the output frame: frame dimensions plus
the position and size of the drawn media inside that frame. -/
structure Placement where
  frameW : ℚ
  frameH : ℚ
  x : ℚ
  y : ℚ
  w : ℚ
  h : ℚ
deriving DecidableEq, Repr

/-- Placement produced by the video stage list: the crop stage outputs a
padW by padH frame and the media ends up at padX minus cropX on it. -/
def videoPlacement (iw ih targetWidth targetHeight : ℤ) (userScale panX panY : ℚ) :
    Placement :=
  let p := planVideo iw ih targetWidth targetHeight userScale panX panY
  { frameW := (p.padW : ℚ)
    frameH := (p.padH : ℚ)
    x := p.padX - p.cropX
    y := p.padY - p.cropY
    w := (p.newW : ℚ)
    h := (p.newH : ℚ) }

/-- Placement produced by the raster draw call. -/
def rasterPlacement (iw ih targetWidth targetHeight : ℤ) (userScale panX panY : ℚ) :
    Placement :=
  let d := processImageDraw iw ih targetWidth targetHeight userScale panX panY
  { frameW := (d.canvasW : ℚ)
    frameH := (d.canvasH : ℚ)
    x := d.x
    y := d.y
    w := d.drawWidth
    h := d.drawHeight }

/-- Rounding an integer leaves it unchanged. -/
theorem jsRound_intCast (n : ℤ) : jsRound (n : ℚ) = n := by
  rw [jsRound, Int.floor_int_add]
  norm_num

/-- Splitting a signed offset into its nonnegative parts multiplies to zero. -/
theorem maxZero_mul_maxZero_neg (a : ℚ) : max 0 a * max 0 (-a) = 0 := by
  rcases le_total a 0 with h | h
  · rw [max_eq_left h, zero_mul]
  · rw [max_eq_left (neg_nonpos.mpr h), mul_zero]

/-- The nonnegative parts of a signed offset recover it by subtraction. -/
theorem maxZero_sub_maxZero_neg (a : ℚ) : max 0 a - max 0 (-a) = a := by
  rcases le_total a 0 with h | h
  · rw [max_eq_left h, max_eq_right (neg_nonneg.mpr h)]
    ring
  · rw [max_eq_right h, max_eq_left (neg_nonpos.mpr h)]
    ring

/-- C10: on each axis the pad offset and the crop offset computed by the video
planner are complementary nonnegative parts of the signed position: both are
nonnegative, at most one is nonzero, and their difference is exactly the
signed position. -/
theorem planVideo_padCrop_complementary (iw ih targetWidth targetHeight : ℤ)
    (userScale panX panY : ℚ) :
    (planVideo iw ih targetWidth targetHeight userScale panX panY).padX
        * (planVideo iw ih targetWidth targetHeight userScale panX panY).cropX = 0 ∧
    0 ≤ (planVideo iw ih targetWidth targetHeight userScale panX panY).padX ∧
    0 ≤ (planVideo iw ih targetWidth targetHeight userScale panX panY).cropX ∧
    (planVideo iw ih targetWidth targetHeight userScale panX panY).padX
        - (planVideo iw ih targetWidth targetHeight userScale panX panY).cropX
        = (planVideo iw ih targetWidth targetHeight userScale panX panY).xPos ∧
    (planVideo iw ih targetWidth targetHeight userScale panX panY).padY
        * (planVideo iw ih targetWidth targetHeight userScale panX panY).cropY = 0 ∧
    0 ≤ (planVideo iw ih targetWidth targetHeight userScale panX panY).padY ∧
    0 ≤ (planVideo iw ih targetWidth targetHeight userScale panX panY).cropY ∧
    (planVideo iw ih targetWidth targetHeight userScale panX panY).padY
        - (planVideo iw ih targetWidth targetHeight userScale panX panY).cropY
        = (planVideo iw ih targetWidth targetHeight userScale panX panY).yPos := by
  simp only [planVideo]
  exact ⟨maxZero_mul_maxZero_neg _, le_max_left 0 _, le_max_left 0 _,
    maxZero_sub_maxZero_neg _, maxZero_mul_maxZero_neg _, le_max_left 0 _,
    le_max_left 0 _, maxZero_sub_maxZero_neg _⟩

/-- C5: for positive target dimensions the even-adjusted pad dimensions are
even and bounded by the originals. -/
theorem planVideo_padDims_even_le (iw ih targetWidth targetHeight : ℤ)
    (userScale panX panY : ℚ) (_hW : 0 < targetWidth) (_hH : 0 < targetHeight) :
    (planVideo iw ih targetWidth targetHeight userScale panX panY).padW % 2 = 0 ∧
    (planVideo iw ih targetWidth targetHeight userScale panX panY).padW ≤ targetWidth ∧
    (planVideo iw ih targetWidth targetHeight userScale panX panY).padH % 2 = 0 ∧
    (planVideo iw ih targetWidth targetHeight userScale panX panY).padH ≤ targetHeight := by
  simp only [planVideo]
  refine ⟨?_, ?_, ?_, ?_⟩ <;> split_ifs <;> omega

/-- Closed instance of C5 at odd concrete targets. -/
theorem planVideo_padDims_even_le_witness :
    (planVideo 1920 1080 1001 999 1 0 0).padW % 2 = 0 ∧
    (planVideo 1920 1080 1001 999 1 0 0).padW ≤ 1001 ∧
    (planVideo 1920 1080 1001 999 1 0 0).padH % 2 = 0 ∧
    (planVideo 1920 1080 1001 999 1 0 0).padH ≤ 999 :=
  planVideo_padDims_even_le 1920 1080 1001 999 1 0 0 (by norm_num) (by norm_num)

/-- C3 as stated is false: for media 1920 by 1080, target 1000 by 1000 and the
identity transform, the planner computes newW = 1000, not 998. -/
theorem planVideo_scenario_newW_ne :
    (planVideo 1920 1080 1000 1000 1 0 0).newW ≠ 998 := by
  norm_num [planVideo, jsRound, min_def]

/-- C3 amended: for media 1920 by 1080, target 1000 by 1000 and the identity
transform, the planner computes scale factor 25 over 48, newW = 1000 (exact,
even, no clamping), newH = 563 even-clamped to 562, a horizontally centered
position (xPos = 0) with vertical offset 219, and zero crop offsets. -/
theorem planVideo_scenario_values :
    (planVideo 1920 1080 1000 1000 1 0 0).scaleFactor = 25/48 ∧
    (planVideo 1920 1080 1000 1000 1 0 0).newW = 1000 ∧
    (planVideo 1920 1080 1000 1000 1 0 0).newH = 562 ∧
    (planVideo 1920 1080 1000 1000 1 0 0).xPos = 0 ∧
    (planVideo 1920 1080 1000 1000 1 0 0).yPos = 219 ∧
    (planVideo 1920 1080 1000 1000 1 0 0).cropX = 0 ∧
    (planVideo 1920 1080 1000 1000 1 0 0).cropY = 0 := by
  norm_num [planVideo, jsRound, min_def]

/-- C6: for transform scale 1, x = 0.5, y = 0 on a 1000 by 1000 target with
media 1080 by 1920 (narrower than the target after the contain fit), the
planner shifts the media 500 pixels right of its centered position, the right
edge of the media extends past the frame, the computed cropX is 0, and the
crop stage still outputs exactly 1000 by 1000 with the leftmost 281 media
columns visible and the rest cropped off on the right. -/
theorem videoPlacement_panRight_scenario :
    (videoPlacement 1080 1920 1000 1000 1 (1/2) 0).frameW = 1000 ∧
    (videoPlacement 1080 1920 1000 1000 1 (1/2) 0).frameH = 1000 ∧
    (videoPlacement 1080 1920 1000 1000 1 (1/2) 0).x
      = ((videoPlacement 1080 1920 1000 1000 1 (1/2) 0).frameW
          - (videoPlacement 1080 1920 1000 1000 1 (1/2) 0).w) / 2 + 500 ∧
    (videoPlacement 1080 1920 1000 1000 1 (1/2) 0).frameW
      < (videoPlacement 1080 1920 1000 1000 1 (1/2) 0).x
          + (videoPlacement 1080 1920 1000 1000 1 (1/2) 0).w ∧
    (planVideo 1080 1920 1000 1000 1 (1/2) 0).cropX = 0 ∧
    0 ≤ (videoPlacement 1080 1920 1000 1000 1 (1/2) 0).x ∧
    (videoPlacement 1080 1920 1000 1000 1 (1/2) 0).frameW
      - (videoPlacement 1080 1920 1000 1000 1 (1/2) 0).x = 281 ∧
    (281 : ℚ) < (videoPlacement 1080 1920 1000 1000 1 (1/2) 0).w := by
  norm_num [videoPlacement, planVideo, jsRound, min_def, max_def]

/-- C2 as stated is false: for media 1920 by 1080, target 1000 by 1000 and the
identity transform, the raster path draws the media 1000 by 562.5 pixels at
y = 218.75, while the video path places it 1000 by 562 pixels at y = 219. -/
theorem rasterVideoPlacement_ne :
    videoPlacement 1920 1080 1000 1000 1 0 0 ≠ rasterPlacement 1920 1080 1000 1000 1 0 0 := by
  intro hcl
  have hh : (videoPlacement 1920 1080 1000 1000 1 0 0).h
      = (rasterPlacement 1920 1080 1000 1000 1 0 0).h := by rw [hcl]
  rw [show (videoPlacement 1920 1080 1000 1000 1 0 0).h = 562 by
        norm_num [videoPlacement, planVideo, jsRound, min_def],
      show (rasterPlacement 1920 1080 1000 1000 1 0 0).h = 1125/2 by
        norm_num [rasterPlacement, processImageDraw, min_def]] at hh
  norm_num at hh

/-- C2 amended: the two paths agree exactly whenever the target dimensions are
even and the exact scaled media dimensions are even integers of at least 2, so
that the rounding, even-clamping and minimum-size steps of the video path are
all identities; otherwise they differ by those adjustments, as the
counterexample shows. -/
theorem rasterVideoPlacement_agree (iw ih targetWidth targetHeight : ℤ)
    (userScale panX panY : ℚ) (w' h' : ℤ)
    (hW : targetWidth % 2 = 0) (hH : targetHeight % 2 = 0)
    (hw : (iw : ℚ) * (min ((targetWidth : ℚ) / (iw : ℚ)) ((targetHeight : ℚ) / (ih : ℚ))
        * userScale) = (w' : ℚ))
    (hh : (ih : ℚ) * (min ((targetWidth : ℚ) / (iw : ℚ)) ((targetHeight : ℚ) / (ih : ℚ))
        * userScale) = (h' : ℚ))
    (hwe : w' % 2 = 0) (hhe : h' % 2 = 0) (hw2 : 2 ≤ w') (hh2 : 2 ≤ h') :
    videoPlacement iw ih targetWidth targetHeight userScale panX panY =
      rasterPlacement iw ih targetWidth targetHeight userScale panX panY := by
  have hpW : (if targetWidth % 2 ≠ 0 then targetWidth - 1 else targetWidth) = targetWidth :=
    if_neg (by omega)
  have hpH : (if targetHeight % 2 ≠ 0 then targetHeight - 1 else targetHeight) = targetHeight :=
    if_neg (by omega)
  simp only [videoPlacement, rasterPlacement, planVideo, processImageDraw, hpW, hpH, hw, hh,
    jsRound_intCast]
  have ew : (if w' % 2 ≠ 0 then w' - 1 else w') = w' := if_neg (by omega)
  have eh : (if h' % 2 ≠ 0 then h' - 1 else h') = h' := if_neg (by omega)
  simp only [ew, eh, max_eq_right hw2, max_eq_right hh2, Placement.mk.injEq,
    maxZero_sub_maxZero_neg]

/-- Closed instance of the amended C2 at square media of side 100 in a 200 by
200 target, where the exact scaled size is the even integer 200. -/
theorem rasterVideoPlacement_agree_witness :
    videoPlacement 100 100 200 200 1 0 0 = rasterPlacement 100 100 200 200 1 0 0 :=
  rasterVideoPlacement_agree 100 100 200 200 1 0 0 200 200 (by norm_num) (by norm_num)
    (by norm_num) (by norm_num) (by norm_num) (by norm_num) (by norm_num) (by norm_num)

/-! ### loadFFmpeg memoization -/

/-- Environment of one initialization attempt: whether SharedArrayBuffer is
available and whether the core load call succeeds. -/
structure FFEnv where
  hasSAB : Bool
  loadOk : Bool
deriving DecidableEq, Repr

/-- Settled outcome of a loadFFmpeg call. -/
inductive LoadResult where
  | ok
  | sabError
  | loadError
deriving DecidableEq, Repr

/-- Module-level state of the loader after all started promises settled:
whether the ffmpeg variable holds an instance, the settled value of the
memoized loadPromise when it is non-null, and how many initialization
attempts have been started. -/
structure FFState where
  ffmpeg : Bool
  loadPromiseSettled : Option LoadResult
  attempts : ℕ
deriving DecidableEq, Repr

/-- State before the first call. -/
def initialFFState : FFState :=
  { ffmpeg := false, loadPromiseSettled := none, attempts := 0 }

/-- One loadFFmpeg call, observed after its promise settles. A ready instance
or a memoized promise is returned as is. Otherwise a fresh attempt starts:
when SharedArrayBuffer is missing the promise rejects and stays memoized
(the reset in the catch around load never runs on this path); when the core
load fails the catch resets the promise to null; on success the instance is
stored. -/
def loadFFmpegCall (env : FFEnv) (s : FFState) : LoadResult × FFState :=
  if s.ffmpeg then (LoadResult.ok, s)
  else
    match s.loadPromiseSettled with
    | some r => (r, s)
    | none =>
      if !env.hasSAB then
        (LoadResult.sabError,
         { ffmpeg := false, loadPromiseSettled := some LoadResult.sabError,
           attempts := s.attempts + 1 })
      else if env.loadOk then
        (LoadResult.ok,
         { ffmpeg := true, loadPromiseSettled := some LoadResult.ok,
           attempts := s.attempts + 1 })
      else
        (LoadResult.loadError,
         { ffmpeg := false, loadPromiseSettled := none,
           attempts := s.attempts + 1 })

/-- C4: the code violates the retry part of the claim on the
SharedArrayBuffer path. The failure is reported to the caller, but a second
call returns the memoized rejected promise and starts no fresh attempt,
while after a core load failure a second call does start a fresh attempt. -/
theorem loadFFmpeg_sab_failure_not_retried :
    (loadFFmpegCall ⟨false, true⟩ initialFFState).1 = LoadResult.sabError ∧
    (loadFFmpegCall ⟨false, true⟩
        (loadFFmpegCall ⟨false, true⟩ initialFFState).2).1 = LoadResult.sabError ∧
    (loadFFmpegCall ⟨false, true⟩
        (loadFFmpegCall ⟨false, true⟩ initialFFState).2).2.attempts = 1 ∧
    (loadFFmpegCall ⟨true, false⟩ initialFFState).1 = LoadResult.loadError ∧
    (loadFFmpegCall ⟨true, false⟩
        (loadFFmpegCall ⟨true, false⟩ initialFFState).2).2.attempts = 2 := by
  decide

/-! ### Batch export (App.handleDownloadAll) -/

/-- One output frame spec. -/
structure ResizeConfig where
  width : ℤ
  height : ℤ
  label : String
deriving DecidableEq, Repr

/-- The fixed target list from types.ts. -/
def RESIZE_CONFIGS : List ResizeConfig :=
  [⟨1000, 1000, "Square (1:1)"⟩, ⟨1920, 1080, "Landscape (16:9)"⟩,
   ⟨1080, 1920, "Portrait (9:16)"⟩]

/-- Observable outcome of handleDownload for one target: either the download
of a generated URL was triggered, or the failure was reported for that target
(the alert in the catch block) and the handler completed normally. -/
inductive DownloadOutcome where
  | downloaded (url : String)
  | reportedFailure (msg : String)
deriving DecidableEq, Repr

/-- App.handleDownload for one config: generation runs inside try, any error
is caught and reported for this target only, and the handler itself never
throws. The generator argument stands for generateUrl with the current file
and transforms. -/
def handleDownload (gen : ResizeConfig → Except String String)
    (config : ResizeConfig) : DownloadOutcome :=
  match gen config with
  | Except.ok url => DownloadOutcome.downloaded url
  | Except.error e => DownloadOutcome.reportedFailure e

/-- App.handleDownloadAll: awaits handleDownload for every config of
RESIZE_CONFIGS in order; since handleDownload never throws, every target is
processed. -/
def handleDownloadAll (gen : ResizeConfig → Except String String) :
    List DownloadOutcome :=
  RESIZE_CONFIGS.map (handleDownload gen)

/-- C9: when the generator fails for the second target and succeeds for the
first and third, the batch still produces a result for every target, with the
failure reported independently for the second one. -/
theorem handleDownloadAll_isolates_failure (gen : ResizeConfig → Except String String)
    (u1 u3 e : String)
    (h1 : gen ⟨1000, 1000, "Square (1:1)"⟩ = Except.ok u1)
    (h2 : gen ⟨1920, 1080, "Landscape (16:9)"⟩ = Except.error e)
    (h3 : gen ⟨1080, 1920, "Portrait (9:16)"⟩ = Except.ok u3) :
    handleDownloadAll gen =
      [DownloadOutcome.downloaded u1, DownloadOutcome.reportedFailure e,
       DownloadOutcome.downloaded u3] := by
  simp only [handleDownloadAll, RESIZE_CONFIGS, List.map_cons, List.map_nil,
    handleDownload, h1, h2, h3]

/-- Closed instance of C9 with a generator that fails exactly on the second
target. -/
theorem handleDownloadAll_isolates_failure_witness :
    handleDownloadAll
        (fun c => if c.label = "Landscape (16:9)" then Except.error "encode failed"
                  else Except.ok "blob") =
      [DownloadOutcome.downloaded "blob", DownloadOutcome.reportedFailure "encode failed",
       DownloadOutcome.downloaded "blob"] :=
  handleDownloadAll_isolates_failure
    (fun c => if c.label = "Landscape (16:9)" then Except.error "encode failed"
              else Except.ok "blob")
    "blob" "blob" "encode failed" rfl rfl rfl

end Resize
